import Mathlib

/-!
Shallow embedding of the Flask backend `src/backend/app.py` of the
roberta-gulin-app repository, together with theorems checking the
natural-language specification against it.

JSON values handled by the handlers are modelled by `PyVal`, which also
captures Python truthiness (`if not x:`) and the semantics of
`dict.get(key, default)`, including the `AttributeError` raised when
`.get` is called on a non-dict value.  External SDK calls (S3, SNS,
Stripe, the Notion HTTP call) are parameters of the handler functions:
an `Except String` result models the Python try/except around them.
-/

/-- A Python/JSON value as it flows through the handlers. -/
inductive PyVal where
  | none : PyVal
  | bool : Bool → PyVal
  | int : Int → PyVal
  | str : String → PyVal
  | list : List PyVal → PyVal
  | dict : List (String × PyVal) → PyVal
deriving Repr

/-- First-match association lookup, the model of Python dict indexing
(keys in a Python dict are unique, so first match is the match). -/
def pyLookup : List (String × PyVal) → String → Option PyVal
  | [], _ => Option.none
  | (k, v) :: rest, key => if k = key then some v else pyLookup rest key

/-- Python truthiness: `None`, `False`, `0`, `""` and empty containers are
falsy, everything else is truthy. -/
def truthy : PyVal → Bool
  | .none => false
  | .bool b => b
  | .int n => n ≠ 0
  | .str s => s ≠ ""
  | .list xs => ¬ xs.isEmpty
  | .dict es => ¬ es.isEmpty

/-- Python `v.get(key, default)`: on a dict, the stored value when the
key is present (even when that value is `None`), otherwise the default;
on any non-dict value an `AttributeError` is raised. -/
def PyVal.get (v : PyVal) (key : String) (default : PyVal) : Except String PyVal :=
  match v with
  | .dict es => .ok ((pyLookup es key).getD default)
  | _ => .error "AttributeError: object has no attribute get"

/-- Iterating a Python value with `for x in v`: lists yield their
elements, strings their one-character substrings, dicts their keys;
other values raise a `TypeError`. -/
def pyIter : PyVal → Except String (List PyVal)
  | .list xs => .ok xs
  | .str s => .ok (s.toList.map fun c => .str (String.singleton c))
  | .dict es => .ok (es.map fun p => .str p.1)
  | _ => .error "TypeError: object is not iterable"

/-- Python `int(v)`, as used on the payment amount: ints pass
through, bools become 0/1, numeric strings are parsed, everything else
raises. -/
def pyToInt : PyVal → Except String Int
  | .int n => .ok n
  | .bool b => .ok (if b then 1 else 0)
  | .str s =>
      match s.toInt? with
      | some n => .ok n
      | Option.none => .error ("invalid literal for int with base 10: " ++ s)
  | _ => .error "int argument must be a string or a number"

/-- An HTTP response produced by a handler: status code and JSON body. -/
structure Response where
  status : Nat
  body : PyVal
deriving Repr

/-- The `{"error": msg}` body every failure path of the app produces. -/
def errBody (msg : String) : PyVal := .dict [("error", .str msg)]

/-- The environment-variable configuration read in `create_app`
(`os.environ.get` yields `None` when a variable is unset). -/
structure Config where
  s3_bucket : Option String
  notion_token : Option String
  notion_database_id : Option String
  aws_region : String
  stripe_secret_key : Option String

/-- Truthiness of an optional environment variable (`if not s3_bucket:`
style checks: unset or empty string are both falsy). -/
def optTruthy : Option String → Bool
  | Option.none => false
  | some s => s ≠ ""

/-- Handler `health_check` (`GET /api/health`): returns `{"status": "ok"}`,
reading nothing from the configuration. -/
def health_check (_cfg : Config) : Response :=
  ⟨200, .dict [("status", .str "ok")]⟩

/-- Handler `create_payment` (`POST /api/payments`).  `stripePresent` models
`stripe is not None`, `stripe_secret_key` the environment variable,
`data` the parsed JSON request body, and `paymentIntentCreate` the
Stripe SDK call `stripe.PaymentIntent.create` (amount, currency,
metadata → client secret or exception). -/
def create_payment (stripePresent : Bool) (stripe_secret_key : Option String)
    (data : List (String × PyVal))
    (paymentIntentCreate : Int → PyVal → PyVal → Except String String) : Response :=
  if !stripePresent || stripe_secret_key.isNone then
    ⟨500, errBody "Payments are not configured"⟩
  else
    let amount := (pyLookup data "amount").getD .none
    let currency := (pyLookup data "currency").getD (.str "usd")
    if !truthy amount then
      ⟨400, errBody "Amount is required"⟩
    else
      match (do
        let n ← pyToInt amount
        paymentIntentCreate n currency ((pyLookup data "metadata").getD (.dict []))) with
      | .ok secret => ⟨200, .dict [("client_secret", .str secret)]⟩
      | .error e => ⟨500, errBody e⟩

/-- An SNS publish call, recording which delivery path was taken and
with which arguments (`sns_client.publish(...)`). -/
inductive SnsCall where
  | topic (topicArn message subject : PyVal)
  | phone (phoneNumber message : PyVal)
deriving Repr

/-- Handler `send_notification` (`POST /api/notifications`).  `snsClientPresent`
models `sns_client is not None`, `publish` the SNS SDK call.  Besides
the HTTP response the model returns the publish call that was issued,
if any, so that theorems can speak about the delivery path. -/
def send_notification (snsClientPresent : Bool) (data : List (String × PyVal))
    (publish : SnsCall → Except String PyVal) : Response × Option SnsCall :=
  if !snsClientPresent then
    (⟨500, errBody "SNS is not configured"⟩, Option.none)
  else
    let subject := (pyLookup data "subject").getD (.str "Notification")
    let message := (pyLookup data "message").getD .none
    let topic_arn := (pyLookup data "topic_arn").getD .none
    let phone_number := (pyLookup data "phone_number").getD .none
    if !truthy message then
      (⟨400, errBody "Message is required"⟩, Option.none)
    else if truthy topic_arn then
      let call := SnsCall.topic topic_arn message subject
      (match (do
          let response ← publish call
          response.get "MessageId" .none) with
       | .ok mid => ⟨200, .dict [("message_id", mid)]⟩
       | .error e => ⟨500, errBody e⟩, some call)
    else if truthy phone_number then
      let call := SnsCall.phone phone_number message
      (match (do
          let response ← publish call
          response.get "MessageId" .none) with
       | .ok mid => ⟨200, .dict [("message_id", mid)]⟩
       | .error e => ⟨500, errBody e⟩, some call)
    else
      (⟨400, errBody "topic_arn or phone_number must be provided"⟩, Option.none)

/-- A file sent in a multipart form, as obtained from
`request.files.get(...)`. -/
structure FileUpload where
  filename : String
deriving Repr

/-- A call to `s3_client.upload_fileobj(file, bucket, key)`, recorded so
that theorems can speak about where the file was stored. -/
structure UploadCall where
  file : FileUpload
  bucket : String
  key : String
deriving Repr

/-- A request to `/api/gallery`: a GET, or a POST carrying the multipart
form files keyed by field name. -/
inductive GalleryRequest where
  | get
  | post (files : List (String × FileUpload))

/-- Lookup in the multipart form files (`request.files.get("image")`). -/
def filesLookup : List (String × FileUpload) → String → Option FileUpload
  | [], _ => Option.none
  | (k, f) :: rest, key => if k = key then some f else filesLookup rest key

/-- Loop body of the gallery GET branch: `for obj in
resp.get("Contents", []): ... objects.append({"key": key, "url": url})`.
An exception anywhere aborts the whole loop (the accumulated list is
discarded by the except branch). -/
def buildGalleryItems (bucket : String)
    (generatePresignedUrl : String → PyVal → Nat → Except String String) :
    List PyVal → Except String (List PyVal)
  | [] => .ok []
  | obj :: rest => do
      let key ← obj.get "Key" .none
      let url ← generatePresignedUrl bucket key 3600
      let tail ← buildGalleryItems bucket generatePresignedUrl rest
      pure (.dict [("key", key), ("url", .str url)] :: tail)

/-- Handler `gallery` (`GET/POST /api/gallery`).  `s3ClientPresent` models
`s3_client` being non-None, `s3_bucket` the environment variable.
`listObjects` is `s3_client.list_objects_v2` (its whole response dict or
an exception), `generatePresignedUrl` is
`s3_client.generate_presigned_url("get_object", Params={Bucket, Key},
ExpiresIn)`, and `uploadFileobj` the upload call.  The model also
returns the upload call that was issued, if any. -/
def gallery (s3ClientPresent : Bool) (s3_bucket : Option String)
    (listObjects : String → Except String PyVal)
    (generatePresignedUrl : String → PyVal → Nat → Except String String)
    (uploadFileobj : UploadCall → Except String Unit)
    (req : GalleryRequest) : Response × Option UploadCall :=
  if !s3ClientPresent || !optTruthy s3_bucket then
    (⟨500, errBody "S3 is not configured"⟩, Option.none)
  else
    let bucket := s3_bucket.getD ""
    match req with
    | .get =>
      (match (do
          let resp ← listObjects bucket
          let contents ← resp.get "Contents" (.list [])
          let objs ← pyIter contents
          buildGalleryItems bucket generatePresignedUrl objs) with
       | .ok objects => ⟨200, .list objects⟩
       | .error e => ⟨500, errBody e⟩, Option.none)
    | .post files =>
      -- `file = request.files.get("image"); if not file:` — a Werkzeug
      -- FileStorage is falsy when its filename is empty
      -- (FileStorage.__bool__ is bool(self.filename)), so an absent
      -- field and a present file with filename "" both take the 400
      -- branch.
      match filesLookup files "image" with
      | Option.none => (⟨400, errBody "No file provided"⟩, Option.none)
      | some file =>
        if file.filename = "" then
          (⟨400, errBody "No file provided"⟩, Option.none)
        else
          let call : UploadCall := ⟨file, bucket, file.filename⟩
          (match uploadFileobj call with
           | .ok _ =>
               ⟨200, .dict [("message", .str "File uploaded"),
                            ("filename", .str file.filename)]⟩
           | .error e => ⟨500, errBody e⟩, some call)

/-- One parsed calendar event (`{"title": ..., "start": ..., "end":
...}`); `end_` stands for the source's `end` key. -/
structure CalEvent where
  title : String
  start : PyVal
  end_ : PyVal
deriving Repr

/-- Python `"".join(item.get("plain_text", "") for item in items)`: each
item must be a dict (else `.get` raises) and each extracted value a
string (else `join` raises a `TypeError`). -/
def joinPlainText : List PyVal → Except String String
  | [] => .ok ""
  | item :: rest => do
      let t ← item.get "plain_text" (.str "")
      match t with
      | .str s =>
          let r ← joinPlainText rest
          .ok (s ++ r)
      | _ => .error "TypeError: sequence item: expected str instance"

/-- The per-page parsing loop body of `get_calendar_events`: extract
title, start and end from the page's nested property structure. -/
def parsePage (page : PyVal) : Except String CalEvent := do
  let properties ← page.get "properties" (.dict [])
  let title_props ← properties.get "Name" (.dict [])
  let title_items ← title_props.get "title" (.list [])
  let items ← pyIter title_items
  let title ← joinPlainText items
  let dateProp ← properties.get "Date" (.dict [])
  let date_props ← dateProp.get "date" (.dict [])
  let start ← date_props.get "start" .none
  let end_ ← date_props.get "end" .none
  pure ⟨title, start, end_⟩

/-- Serialisation of a parsed event back into the JSON response body. -/
def eventToPyVal (ev : CalEvent) : PyVal :=
  .dict [("title", .str ev.title), ("start", ev.start), ("end", ev.end_)]

/-- Loop of `get_calendar_events`: `for page in data.get("results", []):
... events.append({...})`.  An exception anywhere aborts the whole loop. -/
def parsePages : List PyVal → Except String (List PyVal)
  | [] => .ok []
  | page :: rest => do
      let ev ← parsePage page
      let tail ← parsePages rest
      pure (eventToPyVal ev :: tail)

/-- The upstream Notion HTTP response: status code, raw text, and the
result of `resp.json()` (which may itself raise). -/
structure NotionResp where
  status_code : Nat
  text : String
  json : Except String PyVal

/-- Handler `get_calendar_events` (`GET /api/calendar`).  `upstream` models
`requests.post(...)`: an exception, or a response whose json body the
handler then parses page by page. -/
def get_calendar_events (notion_token notion_database_id : Option String)
    (upstream : Except String NotionResp) : Response :=
  if !optTruthy notion_token || !optTruthy notion_database_id then
    ⟨500, errBody "Notion is not configured"⟩
  else
    match upstream with
    | .error e => ⟨500, errBody e⟩
    | .ok resp =>
      if resp.status_code ≠ 200 then
        ⟨500, .dict [("error", .str "Notion API returned an error"),
                     ("details", .str resp.text)]⟩
      else
        match (do
            let data ← resp.json
            let results ← data.get "results" (.list [])
            let pages ← pyIter results
            parsePages pages) with
        | .ok events => ⟨200, .list events⟩
        | .error e => ⟨500, errBody e⟩

/-! ## Helper lemmas on `Except` -/

/-- Binding a successful `Except` computation just applies the
continuation. -/
@[simp] theorem except_bind_ok {α β : Type} (a : α) (f : α → Except String β) :
    ((Except.ok a : Except String α) >>= f) = f a := rfl

/-- Binding a failed `Except` computation propagates the error. -/
@[simp] theorem except_bind_error {α β : Type} (e : String) (f : α → Except String β) :
    ((Except.error e : Except String α) >>= f) = Except.error e := rfl

/-- On `Except`, `pure` is `Except.ok`. -/
@[simp] theorem except_pure_eq {α : Type} (a : α) :
    (pure a : Except String α) = Except.ok a := rfl

/-- A bind chain succeeds exactly when both stages succeed. -/
theorem except_bind_eq_ok {α β : Type} {x : Except String α}
    {f : α → Except String β} {b : β} :
    (x >>= f) = Except.ok b ↔ ∃ a, x = Except.ok a ∧ f a = Except.ok b := by
  cases x <;> simp

/-- When every presign call succeeds, the gallery loop produces one
`{key, url}` record per listed object, in order, each presigned with
`ExpiresIn = 3600`. -/
theorem buildGalleryItems_ok (bucket : String)
    (presignF : String → PyVal → Nat → String) (keys : List String) :
    buildGalleryItems bucket (fun b k n => .ok (presignF b k n))
        (keys.map fun k => .dict [("Key", .str k)]) =
      .ok (keys.map fun k =>
        .dict [("key", .str k), ("url", .str (presignF bucket (.str k) 3600))]) := by
  induction keys with
  | nil => rfl
  | cons k rest ih => simp [buildGalleryItems, PyVal.get, pyLookup, ih]

/-! ## Theorems about the claims -/

/-- C8: GET /api/health always returns status 200 with body
`{"status": "ok"}`, for every configuration state; the handler has no
failure branch. -/
theorem C8_health_always_ok (cfg : Config) :
    health_check cfg = ⟨200, .dict [("status", .str "ok")]⟩ := rfl

/-- C4: whenever no storage bucket is configured (the S3_BUCKET_NAME
environment variable is unset), every request to /api/gallery — GET or
POST, whatever the form contents and whatever the S3 stubs do — gets
status 500 with the configuration error body. -/
theorem C4_gallery_unconfigured_returns_500 (s3ClientPresent : Bool)
    (listObjects : String → Except String PyVal)
    (generatePresignedUrl : String → PyVal → Nat → Except String String)
    (uploadFileobj : UploadCall → Except String Unit) (req : GalleryRequest) :
    (gallery s3ClientPresent Option.none listObjects generatePresignedUrl
        uploadFileobj req).1 = ⟨500, errBody "S3 is not configured"⟩ := by
  cases s3ClientPresent <;> rfl

/-- C1 counterexample: a POST /api/payments request whose body contains
the key "amount" with value 0 (the field is present) is nevertheless
rejected with status 400, because the handler tests `if not amount:`
(Python truthiness), not presence.  This refutes the claim that any
request in which amount is present passes validation. -/
theorem C1_counterexample :
    pyLookup [("amount", PyVal.int 0), ("currency", PyVal.str "usd")] "amount"
        = some (PyVal.int 0) ∧
    (create_payment true (some "sk_test")
        [("amount", PyVal.int 0), ("currency", PyVal.str "usd")]
        (fun _ _ _ => .ok "secret")).status = 400 :=
  ⟨rfl, rfl⟩

/-- C1 (amended): with the payment processor configured, a POST
/api/payments request is rejected with status 400 exactly when the
amount field is missing or carries a falsy value (null, false, 0, empty
string, empty array or empty object); a request whose amount is truthy
never yields a 400. -/
theorem C1_payment_400_iff_amount_falsy (stripe_secret_key : String)
    (data : List (String × PyVal))
    (paymentIntentCreate : Int → PyVal → PyVal → Except String String) :
    (create_payment true (some stripe_secret_key) data paymentIntentCreate).status
        = 400 ↔
      truthy ((pyLookup data "amount").getD PyVal.none) = false := by
  unfold create_payment
  cases h : truthy ((pyLookup data "amount").getD PyVal.none) <;> simp [h]
  split <;> simp

/-- C5: with SNS configured, every POST /api/notifications request whose
JSON body has no "message" key is rejected with status 400 and the
"Message is required" error body. -/
theorem C5_notification_missing_message_400 (data : List (String × PyVal))
    (publish : SnsCall → Except String PyVal)
    (h : pyLookup data "message" = Option.none) :
    (send_notification true data publish).1 =
      ⟨400, errBody "Message is required"⟩ := by
  unfold send_notification
  simp [h, truthy]

/-- C5 witness: a concrete body with subject and topic_arn but no
message is rejected with 400. -/
theorem C5_notification_missing_message_400_witness :
    (send_notification true
        [("subject", PyVal.str "s"), ("topic_arn", PyVal.str "t")]
        (fun _ => .ok (PyVal.dict []))).1 =
      ⟨400, errBody "Message is required"⟩ :=
  C5_notification_missing_message_400 _ _ rfl

/-- C3 counterexample: a POST /api/notifications request supplying both
targets — topic_arn present with value "" and phone_number present and
non-empty (message present, SNS configured) — is delivered via the
phone-number path, because `if topic_arn:` tests Python truthiness and
the empty string is falsy.  This refutes the claim that whenever both
fields are supplied the topic path is taken and the phone path never. -/
theorem C3_counterexample :
    (pyLookup [("message", PyVal.str "hello"), ("topic_arn", PyVal.str ""),
        ("phone_number", PyVal.str "15551234567")] "topic_arn"
          = some (PyVal.str "") ∧
     pyLookup [("message", PyVal.str "hello"), ("topic_arn", PyVal.str ""),
        ("phone_number", PyVal.str "15551234567")] "phone_number"
          = some (PyVal.str "15551234567") ∧
     pyLookup [("message", PyVal.str "hello"), ("topic_arn", PyVal.str ""),
        ("phone_number", PyVal.str "15551234567")] "message"
          = some (PyVal.str "hello")) ∧
    (send_notification true
        [("message", PyVal.str "hello"), ("topic_arn", PyVal.str ""),
         ("phone_number", PyVal.str "15551234567")]
        (fun _ => .ok (PyVal.dict [("MessageId", PyVal.str "m1")]))).2 =
      some (SnsCall.phone (PyVal.str "15551234567") (PyVal.str "hello")) :=
  ⟨⟨rfl, rfl, rfl⟩, rfl⟩

/-- C3 (amended): with SNS configured and a truthy message, whenever
topic_arn is supplied with a truthy (non-empty) value — in particular
when a truthy phone_number is supplied alongside it — the notification
is delivered via the topic path: the publish call issued is a topic
publish, never a phone publish. -/
theorem C3_topic_precedence_when_truthy (data : List (String × PyVal))
    (publish : SnsCall → Except String PyVal)
    (hm : truthy ((pyLookup data "message").getD PyVal.none) = true)
    (ht : truthy ((pyLookup data "topic_arn").getD PyVal.none) = true) :
    (send_notification true data publish).2 =
      some (SnsCall.topic ((pyLookup data "topic_arn").getD PyVal.none)
        ((pyLookup data "message").getD PyVal.none)
        ((pyLookup data "subject").getD (PyVal.str "Notification"))) := by
  unfold send_notification
  simp [hm, ht]

/-- C3 witness: with both a non-empty topic_arn and a non-empty
phone_number supplied, the publish call is a topic publish. -/
theorem C3_topic_precedence_when_truthy_witness :
    (send_notification true
        [("message", PyVal.str "hi"), ("topic_arn", PyVal.str "arn-1"),
         ("phone_number", PyVal.str "15550001111")]
        (fun _ => .ok (PyVal.dict [("MessageId", PyVal.str "m1")]))).2 =
      some (SnsCall.topic (PyVal.str "arn-1") (PyVal.str "hi")
        (PyVal.str "Notification")) :=
  C3_topic_precedence_when_truthy _ _ rfl rfl

/-- C2: a calendar page whose properties dict lacks the "Name" and/or
"Date" keys degrades silently: with both keys absent the page parses to
title "", start null, end null; whenever "Name" is absent any
successfully parsed record has title ""; whenever "Date" is absent any
successfully parsed record has null start and end; and a request whose
single returned page lacks both keys succeeds with status 200 rather
than failing. -/
theorem C2_calendar_missing_props_degrade
    (pageEntries entries : List (String × PyVal))
    (hp : pyLookup pageEntries "properties" = some (.dict entries)) :
    (pyLookup entries "Name" = Option.none → pyLookup entries "Date" = Option.none →
        parsePage (.dict pageEntries) = .ok ⟨"", .none, .none⟩)
    ∧ (∀ ev, pyLookup entries "Name" = Option.none →
        parsePage (.dict pageEntries) = .ok ev → ev.title = "")
    ∧ (∀ ev, pyLookup entries "Date" = Option.none →
        parsePage (.dict pageEntries) = .ok ev →
          ev.start = PyVal.none ∧ ev.end_ = PyVal.none)
    ∧ (pyLookup entries "Name" = Option.none → pyLookup entries "Date" = Option.none →
        ∀ (tok db text : String), tok ≠ "" → db ≠ "" →
          get_calendar_events (some tok) (some db)
              (.ok ⟨200, text, .ok (.dict [("results", .list [.dict pageEntries])])⟩) =
            ⟨200, .list [.dict [("title", .str ""), ("start", PyVal.none),
                                ("end", PyVal.none)]]⟩) := by
  have hpp : pyLookup entries "Name" = Option.none →
      pyLookup entries "Date" = Option.none →
      parsePage (.dict pageEntries) = .ok ⟨"", .none, .none⟩ := by
    intro hN hD
    unfold parsePage
    simp [PyVal.get, hp, hN, hD, pyIter, joinPlainText, pyLookup]
  refine ⟨hpp, ?_, ?_, ?_⟩
  · intro ev hN hok
    unfold parsePage at hok
    simp [PyVal.get, hp, hN, pyIter, joinPlainText, pyLookup,
      except_bind_eq_ok] at hok
    obtain ⟨dp, hdp, s, hs, e, he, hev⟩ := hok
    rw [← hev]
  · intro ev hD hok
    unfold parsePage at hok
    simp [PyVal.get, hp, hD, pyLookup, except_bind_eq_ok] at hok
    obtain ⟨ti, hti, items, hitems, title, htitle, hev⟩ := hok
    rw [← hev]
    exact ⟨rfl, rfl⟩
  · intro hN hD tok db text htok hdb
    simp [get_calendar_events, optTruthy, htok, hdb, PyVal.get, pyLookup, pyIter,
      parsePages, hpp hN hD, eventToPyVal]

/-- C2 witness: a concrete page with neither a "Name" nor a "Date"
property parses to the empty/null record, and the whole request
succeeds with status 200. -/
theorem C2_calendar_missing_props_degrade_witness :
    parsePage (.dict [("properties", PyVal.dict [("Other", PyVal.str "x")])]) =
        .ok ⟨"", .none, .none⟩ ∧
    get_calendar_events (some "token") (some "db")
        (.ok ⟨200, "",
          .ok (.dict [("results", .list
            [.dict [("properties", PyVal.dict [("Other", PyVal.str "x")])]])])⟩) =
      ⟨200, .list [.dict [("title", .str ""), ("start", PyVal.none),
                          ("end", PyVal.none)]]⟩ := by
  have h := C2_calendar_missing_props_degrade
    [("properties", PyVal.dict [("Other", PyVal.str "x")])]
    [("Other", PyVal.str "x")] rfl
  exact ⟨h.1 rfl rfl, h.2.2.2 rfl rfl "token" "db" "" (by decide) (by decide)⟩

/-- C6: with a bucket configured and a successful listing, GET
/api/gallery returns status 200 with exactly one {key, url} record per
listed object, in listing order, each url produced by the presign call
with ExpiresIn = 3600 seconds. -/
theorem C6_gallery_listing_presigned_3600 (bucket : String) (hb : bucket ≠ "")
    (keys : List String)
    (presignF : String → PyVal → Nat → String)
    (uploadFileobj : UploadCall → Except String Unit) :
    (gallery true (some bucket)
        (fun _ => .ok (.dict [("Contents",
            .list (keys.map fun k => .dict [("Key", .str k)]))]))
        (fun b k n => .ok (presignF b k n)) uploadFileobj .get).1 =
      ⟨200, .list (keys.map fun k =>
        .dict [("key", .str k),
               ("url", .str (presignF bucket (.str k) 3600))])⟩ := by
  unfold gallery
  simp [optTruthy, hb, PyVal.get, pyLookup, pyIter, buildGalleryItems_ok]

/-- C6 witness: listing a two-object bucket yields the two records in
order with their presigned urls. -/
theorem C6_gallery_listing_presigned_3600_witness :
    (gallery true (some "media")
        (fun _ => .ok (.dict [("Contents",
            .list [PyVal.dict [("Key", PyVal.str "a.jpg")],
                   PyVal.dict [("Key", PyVal.str "b.png")]])]))
        (fun _ _ _ => .ok "signed-url") (fun _ => .ok ()) .get).1 =
      ⟨200, .list [PyVal.dict [("key", PyVal.str "a.jpg"),
                               ("url", PyVal.str "signed-url")],
                   PyVal.dict [("key", PyVal.str "b.png"),
                               ("url", PyVal.str "signed-url")]]⟩ :=
  C6_gallery_listing_presigned_3600 "media" (by decide) ["a.jpg", "b.png"]
    (fun _ _ _ => "signed-url") (fun _ => .ok ())

/-- C7 counterexample: a multipart form that does carry a file part
under "image", but with an empty filename (the part a browser submits
for an unselected file input), is rejected with 400 and nothing is
uploaded — because `if not file:` tests Werkzeug FileStorage
truthiness, which is bool(self.filename).  This refutes the claim that
every request with a file present under "image" stores it and returns
its filename. -/
theorem C7_counterexample :
    filesLookup [("image", (⟨""⟩ : FileUpload))] "image" = some ⟨""⟩ ∧
    gallery true (some "media") (fun _ => .error "unused")
        (fun _ _ _ => .error "unused") (fun _ => .ok ())
        (.post [("image", (⟨""⟩ : FileUpload))]) =
      (⟨400, errBody "No file provided"⟩, Option.none) :=
  ⟨rfl, rfl⟩

/-- C7 (amended): with a bucket configured, a POST /api/gallery upload
gets status 400 when the multipart form has no file under the field
name "image", and likewise when the file present there has an empty
filename (a falsy FileStorage); otherwise, when the upload succeeds,
the upload call stores the file under its original filename and the
success body echoes that same filename. -/
theorem C7_gallery_upload_contract (bucket : String) (hb : bucket ≠ "")
    (files : List (String × FileUpload))
    (listObjects : String → Except String PyVal)
    (generatePresignedUrl : String → PyVal → Nat → Except String String)
    (uploadFileobj : UploadCall → Except String Unit) :
    (filesLookup files "image" = Option.none →
      (gallery true (some bucket) listObjects generatePresignedUrl uploadFileobj
          (.post files)).1 = ⟨400, errBody "No file provided"⟩)
    ∧ (∀ file, filesLookup files "image" = some file → file.filename = "" →
        gallery true (some bucket) listObjects generatePresignedUrl uploadFileobj
            (.post files) =
          (⟨400, errBody "No file provided"⟩, Option.none))
    ∧ ∀ file, filesLookup files "image" = some file → file.filename ≠ "" →
        uploadFileobj ⟨file, bucket, file.filename⟩ = .ok () →
          gallery true (some bucket) listObjects generatePresignedUrl uploadFileobj
              (.post files) =
            (⟨200, .dict [("message", .str "File uploaded"),
                          ("filename", .str file.filename)]⟩,
             some ⟨file, bucket, file.filename⟩) := by
  refine ⟨?_, ?_, ?_⟩
  · intro h
    unfold gallery
    simp [optTruthy, hb, h]
  · intro file hf he
    unfold gallery
    simp [optTruthy, hb, hf, he]
  · intro file hf hne hu
    unfold gallery
    simp [optTruthy, hb, hf, hne, hu]

/-- C7 witness: an empty form is rejected with 400; a form whose
"image" part has an empty filename is rejected with 400 and not
stored; a form holding photo.jpg under "image" is stored as photo.jpg
and the response echoes that filename. -/
theorem C7_gallery_upload_contract_witness :
    (gallery true (some "media") (fun _ => .error "unused")
        (fun _ _ _ => .error "unused") (fun _ => .ok ()) (.post [])).1 =
      ⟨400, errBody "No file provided"⟩ ∧
    gallery true (some "media") (fun _ => .error "unused")
        (fun _ _ _ => .error "unused") (fun _ => .ok ())
        (.post [("image", (⟨""⟩ : FileUpload))]) =
      (⟨400, errBody "No file provided"⟩, Option.none) ∧
    gallery true (some "media") (fun _ => .error "unused")
        (fun _ _ _ => .error "unused") (fun _ => .ok ())
        (.post [("image", ⟨"photo.jpg"⟩)]) =
      (⟨200, .dict [("message", .str "File uploaded"),
                    ("filename", .str "photo.jpg")]⟩,
       some ⟨⟨"photo.jpg"⟩, "media", "photo.jpg"⟩) :=
  ⟨(C7_gallery_upload_contract "media" (by decide) [] (fun _ => .error "unused")
      (fun _ _ _ => .error "unused") (fun _ => .ok ())).1 rfl,
   (C7_gallery_upload_contract "media" (by decide) [("image", ⟨""⟩)]
      (fun _ => .error "unused") (fun _ _ _ => .error "unused")
      (fun _ => .ok ())).2.1 ⟨""⟩ rfl rfl,
   (C7_gallery_upload_contract "media" (by decide) [("image", ⟨"photo.jpg"⟩)]
      (fun _ => .error "unused") (fun _ _ _ => .error "unused")
      (fun _ => .ok ())).2.2 ⟨"photo.jpg"⟩ rfl (by decide) rfl⟩

/-- C9: a calendar request whose upstream body holds a single page with
a "Date" property present but a null nested "date" value makes the
whole request return 500 (the AttributeError raised by None.get inside
the loop reaches the handler's except branch) instead of degrading that
entry to null start/end fields. -/
theorem C9_null_date_value_500 :
    get_calendar_events (some "token") (some "db")
        (.ok ⟨200, "",
          .ok (.dict [("results", .list
            [.dict [("properties",
              .dict [("Date", .dict [("date", PyVal.none)])])]])])⟩) =
      ⟨500, errBody "AttributeError: object has no attribute get"⟩ := rfl

/-- C10: every endpoint with both a configuration check and an
input-validation check runs the configuration check first: with the
respective dependency unconfigured, gallery POST (for any form,
including one with no "image" file), payments (for any body, including
one with no amount) and notifications (for any body, including one with
no message) all return the 500 configuration error, never the 400
validation error. -/
theorem C10_config_check_before_validation (s3ClientPresent stripePresent : Bool)
    (listObjects : String → Except String PyVal)
    (generatePresignedUrl : String → PyVal → Nat → Except String String)
    (uploadFileobj : UploadCall → Except String Unit)
    (files : List (String × FileUpload))
    (data : List (String × PyVal))
    (paymentIntentCreate : Int → PyVal → PyVal → Except String String)
    (publish : SnsCall → Except String PyVal) :
    (gallery s3ClientPresent Option.none listObjects generatePresignedUrl
        uploadFileobj (.post files)).1 = ⟨500, errBody "S3 is not configured"⟩
    ∧ create_payment stripePresent Option.none data paymentIntentCreate =
        ⟨500, errBody "Payments are not configured"⟩
    ∧ (send_notification false data publish).1 =
        ⟨500, errBody "SNS is not configured"⟩ := by
  refine ⟨?_, ?_, rfl⟩
  · cases s3ClientPresent <;> rfl
  · cases stripePresent <;> rfl
